import Mathlib

/-!
Verification of the disk-image navigation core of the Porsha repository.

The development shallowly embeds `tools/disk_analysis.py` (the
`DiskImageHandler` class), the disk branch of `gui/worker.py`
(`BaseWorker.stop` / `DiskAnalysisWorker.run`) and the navigation logic of
`gui/disk_tab.py` (`DiskTab`).  The external forensic library (pytsk3) is an
opaque collaborator: its calls are modelled as oracle parameters whose
outcomes (`Except`, sum types) stand for the value returned or the exception
raised by the library.  Qt signals become values appended to an explicit
signal list; the cooperative stop flag becomes a function giving the value
the flag is observed to hold at each successive check point of the task
body.
-/

namespace Porsha

/-- One partition record produced by the volume-system collaborator
(pytsk3 `Volume_Info` iteration): `addr`, `desc` (raw bytes decoded to a
string, `none` when the library reports no description), `start`, `len`
and the stringified flags. -/
structure TskPart where
  addr : Nat
  desc : Option String
  start : Nat
  len : Nat
  flags : String
deriving DecidableEq

/-- Image-level information (pytsk3 `Img_Info`): the byte size returned by
`get_size()` and the sector size returned by `get_block_size()`. -/
structure ImgInfo where
  size : Nat
  blockSize : Nat
deriving DecidableEq

/-- An open volume system (pytsk3 `Volume_Info`): its `block_size` and the
partitions it enumerates. -/
structure VolumeInfo where
  blockSize : Nat
  parts : List TskPart
deriving DecidableEq

/-- An open filesystem (pytsk3 `FS_Info`): the filesystem type tag
(`info.ftype`) and the root inode number (`info.root_inum`). -/
structure FsInfo where
  ftype : Nat
  rootInum : Nat
deriving DecidableEq

/-- Outcome of the volume-system probe `pytsk3.Volume_Info(img_info)` and of
the iteration over it, as observed by `get_volume_info`:
  * `ok` — the probe and the whole iteration succeed;
  * `ioError` — the probe itself raises `IOError` (the classified
    "no partition table" condition: no partition was read);
  * `iterIoError` — the probe succeeds but the iteration raises `IOError`
    after yielding a first batch of partitions;
  * `otherError` — the probe raises a non-IOError exception;
  * `iterOtherError` — the iteration raises a non-IOError exception. -/
inductive VolumeInfoResult where
  | ok (blockSize : Nat) (parts : List TskPart)
  | ioError (msg : String)
  | iterIoError (blockSize : Nat) (partsRead : List TskPart) (msg : String)
  | otherError (msg : String)
  | iterOtherError (blockSize : Nat) (partsRead : List TskPart) (msg : String)
deriving DecidableEq

/-- The dictionary built for each volume by `get_volume_info` (keys `slot`,
`desc`, `start_sector`, `num_sectors`, `flags`). -/
structure VolumeDescriptor where
  slot : Nat
  desc : String
  start_sector : Nat
  num_sectors : Nat
  flags : String
deriving DecidableEq

/-- The mutable state of a `DiskImageHandler` instance after `__init__`
succeeded: the image path, the opened `Img_Info`, and the three fields
`volume_info`, `fs_info`, `partition_offset` (all `None` right after
construction). -/
structure DiskImageHandler where
  image_path : String
  img_info : ImgInfo
  volume_info : Option VolumeInfo
  fs_info : Option FsInfo
  partition_offset : Option Nat
deriving DecidableEq

/-- The handler state `DiskImageHandler.__init__` leaves behind when
`pytsk3.Img_Info` succeeds: `volume_info`, `fs_info` and
`partition_offset` are all `None`. -/
def freshHandler (path : String) (img : ImgInfo) : DiskImageHandler :=
  { image_path := path, img_info := img, volume_info := none,
    fs_info := none, partition_offset := none }

/-- Conversion of one collaborator partition record into the result
dictionary (`desc.decode` with a missing description rendered as `N/A`). -/
def partToDescriptor (p : TskPart) : VolumeDescriptor :=
  { slot := p.addr, desc := p.desc.getD ("N/A"), start_sector := p.start,
    num_sectors := p.len, flags := p.flags }

/-- The synthetic whole-image descriptor `get_volume_info` appends when the
volume-system probe raises `IOError`. -/
def syntheticVolume (img : ImgInfo) : VolumeDescriptor :=
  { slot := 0, desc := "Potential Filesystem (No Partition Table)",
    start_sector := 0, num_sectors := img.size / img.blockSize, flags := "N/A" }

/-- `DiskImageHandler.get_volume_info`: probes the volume system, converts
each partition to a dictionary, and on the classified `IOError`
("no partition table") appends the synthetic whole-image entry to whatever
was collected before the raise; any other exception yields an empty list.
Returns the updated handler (the `self.volume_info` assignment only lands
when the probe itself succeeded) together with the returned list. -/
def get_volume_info (h : DiskImageHandler) (probe : VolumeInfoResult) :
    DiskImageHandler × List VolumeDescriptor :=
  match probe with
  | .ok blockSize parts =>
      ({ h with volume_info := some { blockSize := blockSize, parts := parts } },
       parts.map partToDescriptor)
  | .ioError _ => (h, [syntheticVolume h.img_info])
  | .iterIoError blockSize partsRead _ =>
      ({ h with volume_info := some { blockSize := blockSize, parts := partsRead } },
       partsRead.map partToDescriptor ++ [syntheticVolume h.img_info])
  | .otherError _ => (h, [])
  | .iterOtherError blockSize partsRead _ =>
      ({ h with volume_info := some { blockSize := blockSize, parts := partsRead } },
       [])

/-- Result of a call to `open_filesystem`: the returned boolean, the handler
state afterwards, and the byte offsets at which an `FS_Info` construction
was attempted (empty when the collaborator was never invoked). -/
structure OpenResult where
  success : Bool
  handler : DiskImageHandler
  fsCalls : List Nat
deriving DecidableEq

/-- The tail of `open_filesystem` once a byte offset is known: attempt
`pytsk3.FS_Info(img, offset)`.  On success `partition_offset` holds the
offset and `fs_info` the opened filesystem; on any exception both are reset
to `None` and `False` is returned.  (The handler assigns
`partition_offset` before the call and clears it again in the exception
branches, so only the net effect is modelled.) -/
def openAt (h : DiskImageHandler) (oracle : Nat → Except String FsInfo)
    (off : Nat) : OpenResult :=
  match oracle off with
  | .ok fs =>
      { success := true,
        handler := { h with partition_offset := some off, fs_info := some fs },
        fsCalls := [off] }
  | .error _ =>
      { success := false,
        handler := { h with partition_offset := none, fs_info := none },
        fsCalls := [off] }

/-- The two opening assignments of `open_filesystem`: `self.fs_info = None`
and `self.partition_offset = None`. -/
def clearFs (h : DiskImageHandler) : DiskImageHandler :=
  { h with fs_info := none, partition_offset := none }

/-- `getattr(self.volume_info, block_size, 512)`: the stored volume-system
sector size, defaulting to 512 when no volume system was probed. -/
def sectorSizeOf (h : DiskImageHandler) : Nat :=
  match h.volume_info with
  | some vi => vi.blockSize
  | none => 512

/-- The partition-index branch of `open_filesystem`: fails when `volume_info`
was never populated or the index names no partition, otherwise opens at the
partition start offset in bytes. -/
def openByPartition (h : DiskImageHandler) (oracle : Nat → Except String FsInfo)
    (idx : Nat) : OpenResult :=
  match h.volume_info with
  | none => { success := false, handler := h, fsCalls := [] }
  | some vi =>
      match vi.parts.find? (fun p => p.addr == idx) with
      | none => { success := false, handler := h, fsCalls := [] }
      | some part => openAt h oracle (part.start * vi.blockSize)

/-- `DiskImageHandler.open_filesystem`: first clears `fs_info` and
`partition_offset`, rejects the both-set and neither-set argument
combinations before any collaborator call, resolves a partition index
through the stored `volume_info` (failing when it is absent or the index is
unknown) or turns the sector offset into bytes, and finally attempts the
`FS_Info` construction via `openAt`. -/
def open_filesystem (h : DiskImageHandler) (oracle : Nat → Except String FsInfo)
    (partition_index offset_sectors : Option Nat) : OpenResult :=
  match partition_index, offset_sectors with
  | some _, some _ => { success := false, handler := clearFs h, fsCalls := [] }
  | none, none => { success := false, handler := clearFs h, fsCalls := [] }
  | some idx, none => openByPartition (clearFs h) oracle idx
  | none, some osec => openAt (clearFs h) oracle (osec * sectorSizeOf (clearFs h))

/-- One raw directory record yielded by iterating the collaborator directory
stream: decoded name (`f.info.name.name`), inode (`f.info.meta.addr`), the
meta-type enum name (`TSK_FS_META_TYPE_ENUM(f.info.meta.type).name`),
permission bits, byte size, the four raw timestamps, and whether the name
flags carry `TSK_FS_NAME_FLAG_UNALLOC`. -/
structure RawDirEntry where
  name : String
  metaAddr : Nat
  metaType : String
  mode : Nat
  size : Int
  mtime : Int
  atime : Int
  ctime : Int
  crtime : Int
  unalloc : Bool
deriving DecidableEq

/-- A successfully opened directory stream (`fs_info.open_dir`): the inode of
the directory being listed (`directory.info.fs_file.meta.addr`) and the
records the iteration yields. -/
structure DirStream where
  dirMetaAddr : Nat
  entries : List RawDirEntry
deriving DecidableEq

/-- The dictionary `list_directory` builds per surviving record. -/
structure DirEntry where
  inode : Nat
  name : String
  type : String
  mode : String
  size : Int
  mtime : String
  atime : String
  ctime : String
  crtime : String
  is_deleted : Bool
deriving DecidableEq

/-- `DiskImageHandler._format_timestamp`: zero renders as `N/A`; otherwise the
local-time formatter (abstracted as `fmt`, partial because
`datetime.fromtimestamp` can raise) either produces the formatted string or
the sentinel `Invalid Date`. -/
def format_timestamp (fmt : Int → Option String) (ts : Int) : String :=
  if ts = 0 then "N/A"
  else match fmt ts with
    | some s => s
    | none => "Invalid Date"

/-- The filter of `list_directory`: drop `.` and `..` unless the listed
directory is the filesystem root, and drop every name with the reserved
leading `$` metadata marker. -/
def keepEntry (isRoot : Bool) (f : RawDirEntry) : Bool :=
  (!((f.name == "." || f.name == "..") && !isRoot)) && (!(f.name.startsWith ("$")))

/-- The per-record dictionary construction of `list_directory` (`oct(mode)`
when the bits are nonzero, else `N/A`; timestamps through
`_format_timestamp`). -/
def mkEntry (fmt : Int → Option String) (f : RawDirEntry) : DirEntry :=
  { inode := f.metaAddr, name := f.name, type := f.metaType,
    mode := if f.mode = 0 then "N/A" else "0o" ++ String.mk (Nat.toDigits 8 f.mode),
    size := f.size,
    mtime := format_timestamp fmt f.mtime,
    atime := format_timestamp fmt f.atime,
    ctime := format_timestamp fmt f.ctime,
    crtime := format_timestamp fmt f.crtime,
    is_deleted := f.unalloc }

/-- Whether an entry fails the directories-first test: the first component of
the Python sort key `x[type] != TSK_FS_META_TYPE_DIR`. -/
def isNonDir (e : DirEntry) : Bool := !(e.type == "TSK_FS_META_TYPE_DIR")

/-- The ordering the Python `entries.sort` induces: lexicographic comparison
of the key pairs `(type != DIR, name.lower())`, with `False < True` on the
first component. -/
def entryKeyLE (a b : DirEntry) : Bool :=
  (decide (isNonDir a = false) && decide (isNonDir b = true))
    || (decide (isNonDir a = isNonDir b)
          && decide (a.name.toLower ≤ b.name.toLower))

/-- `entryKeyLE` as a relation, for `List.insertionSort`. -/
def entryRel (a b : DirEntry) : Prop := entryKeyLE a b = true

instance : DecidableRel entryRel := fun a b =>
  inferInstanceAs (Decidable (entryKeyLE a b = true))

instance : IsTotal DirEntry entryRel := by
  constructor
  intro a b
  unfold entryRel entryKeyLE
  simp only [Bool.or_eq_true, Bool.and_eq_true, decide_eq_true_eq]
  rcases Bool.eq_false_or_eq_true (isNonDir a) with ha | ha <;>
    rcases Bool.eq_false_or_eq_true (isNonDir b) with hb | hb <;>
      rcases le_total a.name.toLower b.name.toLower with hn | hn <;>
        simp [ha, hb, hn]

instance : IsTrans DirEntry entryRel := by
  constructor
  intro a b c hab hbc
  unfold entryRel entryKeyLE at hab hbc ⊢
  simp only [Bool.or_eq_true, Bool.and_eq_true, decide_eq_true_eq] at hab hbc ⊢
  rcases hab with ⟨ha, hb⟩ | ⟨hab, hnab⟩
  · rcases hbc with ⟨hb2, _⟩ | ⟨hbc, _⟩
    · rw [hb] at hb2
      exact absurd hb2 (by simp)
    · exact Or.inl ⟨ha, hbc ▸ hb⟩
  · rcases hbc with ⟨hb2, hc⟩ | ⟨hbc, hnbc⟩
    · exact Or.inl ⟨hab ▸ hb2, hc⟩
    · exact Or.inr ⟨hab.trans hbc, le_trans hnab hnbc⟩

/-- The body of `list_directory` after the directory stream was obtained:
filter out the special and `$`-reserved names, build a dictionary per
record, and sort by the key `(type != DIR, name.lower())` (Python `sort` is
a stable ascending sort; insertion sort models it). -/
def process_dir (fs : FsInfo) (fmt : Int → Option String) (dir : DirStream) :
    List DirEntry :=
  let isRoot : Bool := dir.dirMetaAddr == fs.rootInum
  List.insertionSort entryRel ((dir.entries.filter (keepEntry isRoot)).map (mkEntry fmt))

/-- How `list_directory` asks the collaborator for the directory stream:
`open_dir(inode=inode)` whenever an inode is given, else
`open_dir(path=path)`. -/
def fetchDir (openDir : Option String → Option Nat → Except String DirStream)
    (path : Option String) (inode : Option Nat) : Except String DirStream :=
  match inode with
  | some i => openDir none (some i)
  | none => openDir path none

/-- `DiskImageHandler.list_directory`: returns `[]` when no filesystem is
open; otherwise fetches the directory stream (by inode when given, else by
path) and processes it, with every collaborator exception converted to an
empty listing. -/
def list_directory (h : DiskImageHandler) (fmt : Int → Option String)
    (openDir : Option String → Option Nat → Except String DirStream)
    (path : Option String) (inode : Option Nat) : List DirEntry :=
  match h.fs_info with
  | none => []
  | some fs =>
      match fetchDir openDir path inode with
      | .error _ => []
      | .ok dir => process_dir fs fmt dir

/-- The Qt signals a `DiskAnalysisWorker` can emit, in emission order. -/
inductive Signal where
  | progress (msg : String)
  | volumeInfoReady (vols : List VolumeDescriptor)
  | filesystemOpened (ok : Bool) (msg : String)
  | directoryListingReady (entries : List DirEntry)
  | error (msg : String)
  | finished
deriving DecidableEq

/-- The keyword arguments a `DiskAnalysisWorker` is constructed with.  An
outer `none` on `list_path` means the key is absent (so
`kwargs.get` falls back to the root path); `some none` means the key is
present holding Python `None`. -/
structure Kwargs where
  task : String
  image_path : Option String := none
  partition_index : Option Nat := none
  offset_sectors : Option Nat := none
  list_path : Option (Option String) := none
  inode : Option Nat := none
deriving DecidableEq

/-- The opaque collaborator behaviour one task execution observes:
the outcome of `DiskImageHandler(image_path)` (`Img_Info` may raise), the
volume-system probe outcome, the `FS_Info` oracle by byte offset, the
`open_dir` oracle, and the timestamp formatter. -/
structure Collab where
  imgResult : Except String ImgInfo
  volumeProbe : VolumeInfoResult
  fsOracle : Nat → Except String FsInfo
  openDir : Option String → Option Nat → Except String DirStream
  fmt : Int → Option String

/-- Running bookkeeping of one task execution: the signals emitted so far and
the index of the next check of the `_is_running` flag. -/
structure RunSt where
  sigs : List Signal
  idx : Nat
deriving DecidableEq

/-- Emit one signal. -/
def emitS (s : RunSt) (sig : Signal) : RunSt := { s with sigs := s.sigs ++ [sig] }

/-- One read of the cooperative stop flag (`self._is_running`): `flag n` is
the value the n-th check observes.  A stop request flips the flag from
`true` to `false`, so genuine executions read a monotone sequence. -/
def checkRun (flag : Nat → Bool) (s : RunSt) : Bool × RunSt :=
  (flag s.idx, { s with idx := s.idx + 1 })

/-- How the `try` block of `DiskAnalysisWorker.run` ends: normally, by an
early `return` at a stop check, or by raising an exception (carried to the
`except` handler). -/
inductive TryExit where
  | normal
  | earlyReturn
  | exn (msg : String)
deriving DecidableEq

/-- The `try` block of `DiskAnalysisWorker.run`: reads the kwargs, constructs
the handler (whose `Img_Info` may raise), then branches on the task name.
Every payload emission is guarded by a check of the stop flag; an unknown
task name raises `ValueError`.  In the `open_fs` branch the success path
references `pytsk3`, which `gui/worker.py` never imports, so it raises
`NameError` instead of emitting the signal.  Runtime values interpolated
into progress texts (paths, indices) are elided: progress signals are
advisory only and no claim inspects their contents. -/
def runTryBody (c : Collab) (k : Kwargs) (flag : Nat → Bool) (s : RunSt) :
    RunSt × TryExit :=
  let s := emitS s (.progress ("Starting disk task: " ++ k.task ++ "..."))
  match c.imgResult with
  | .error e => (s, .exn e)
  | .ok img =>
    let h := freshHandler (k.image_path.getD ("")) img
    if k.task == "get_volumes" then
      let s := emitS s (.progress ("Reading volume information..."))
      let vols := (get_volume_info h c.volumeProbe).2
      let (r, s) := checkRun flag s
      if r then (emitS s (.volumeInfoReady vols), .normal) else (s, .earlyReturn)
    else if k.task == "open_fs" then
      let s := emitS s (.progress ("Attempting to open filesystem..."))
      let res := open_filesystem h c.fsOracle k.partition_index k.offset_sectors
      let (r, s) := checkRun flag s
      if !r then (s, .earlyReturn)
      else if res.success && res.handler.fs_info.isSome then
        (s, .exn ("NameError: pytsk3 is not defined"))
      else (emitS s (.filesystemOpened res.success ("")), .normal)
    else if k.task == "list_dir" then
      let listPath := k.list_path.getD (some ("/"))
      let s := emitS s (.progress ("Opening filesystem to list directory..."))
      let res := open_filesystem h c.fsOracle k.partition_index k.offset_sectors
      if !res.success then
        let (r, s) := checkRun flag s
        if r then
          (emitS s (.error ("Failed to open filesystem before listing directory.")), .normal)
        else (s, .earlyReturn)
      else
        let s := emitS s (.progress ("Listing directory..."))
        let entries := list_directory res.handler c.fmt c.openDir listPath k.inode
        let (r, s) := checkRun flag s
        if r then (emitS s (.directoryListingReady entries), .normal)
        else (s, .earlyReturn)
    else (s, .exn ("Unknown disk task: " ++ k.task))

/-- `DiskAnalysisWorker.run` in full: the `try` body, then the `except`
handler (which re-checks the stop flag before converting the exception to
an `error` signal), then the `finally` block (handler close, then
`finished` only when the stop flag still reads `true`).  `return`
statements inside `try` and `except` still pass through `finally`. -/
def run (c : Collab) (k : Kwargs) (flag : Nat → Bool) : List Signal :=
  let (s1, ex) := runTryBody c k flag { sigs := [], idx := 0 }
  let s2 := match ex with
    | .exn e =>
        let (r, s') := checkRun flag s1
        if r then emitS s' (.error ("Disk analysis error: " ++ e)) else s'
    | _ => s1
  let (r, s3) := checkRun flag s2
  if r then (emitS s3 .finished).sigs else s3.sigs

/-- The user-visible effects a `DiskTab` handler produces besides mutating
its own state: the two `QMessageBox.warning` rejections of
`_start_disk_analysis`, the start of a worker with its kwargs, the
`_show_error` path, and the informational popup for non-directory entries. -/
inductive UiEvent where
  | warnNoImage
  | warnBusy
  | taskStarted (k : Kwargs)
  | showErrorMsg (msg : String)
  | infoPopup (msg : String)
deriving DecidableEq

/-- The navigation-relevant state of a `DiskTab` instance. -/
structure TabState where
  imagePath : Option String := none
  threadRunning : Bool := false
  selectedPartitionIndex : Option Nat := none
  selectedOffset : Option Nat := none
  currentFsOpen : Bool := false
deriving DecidableEq

/-- `DiskTab._start_disk_analysis`: warn when no image is selected, warn
`Busy` (and change nothing) when the worker thread is still running,
otherwise insert the image path into the kwargs and start the thread. -/
def startDiskAnalysis (s : TabState) (req : Kwargs) : TabState × List UiEvent :=
  match s.imagePath with
  | none => (s, [UiEvent.warnNoImage])
  | some p =>
      if s.threadRunning then (s, [UiEvent.warnBusy])
      else ({ s with threadRunning := true },
            [UiEvent.taskStarted { req with image_path := some p }])

/-- Whether one string contains another as a contiguous substring, a prefix
check folded along the text (the Python `in` operator on `str`). -/
def listStarts : List Char → List Char → Bool
  | _, [] => true
  | [], _ :: _ => false
  | c :: cs, p :: ps => c == p && listStarts cs ps

/-- Substring search over character lists (helper for `strContains`). -/
def listHasSub : List Char → List Char → Bool
  | [], pat => pat.isEmpty
  | c :: cs, pat => listStarts (c :: cs) pat || listHasSub cs pat

/-- `pat in s` for Python strings. -/
def strContains (s pat : String) : Bool := listHasSub s.toList pat.toList

/-- `DiskTab._volume_selected`: record the clicked slot and start sector in
the navigation fields and clear the open flag; when the description marks
the synthetic whole-image volume, drop the partition index, force offset 0
and dispatch a `list_dir` task by offset; otherwise dispatch a `list_dir`
task by partition index (both at root path). -/
def volumeSelected (s : TabState) (slot startSector : Nat) (desc : String) :
    TabState × List UiEvent :=
  let s1 : TabState :=
    { s with selectedPartitionIndex := some slot,
             selectedOffset := some startSector, currentFsOpen := false }
  if strContains desc ("Potential Filesystem") then
    let s2 : TabState := { s1 with selectedPartitionIndex := none, selectedOffset := some 0 }
    startDiskAnalysis s2
      { task := "list_dir", offset_sectors := some 0, list_path := some (some ("/")) }
  else
    startDiskAnalysis s1
      { task := "list_dir", partition_index := some slot, list_path := some (some ("/")) }

/-- `DiskTab._file_double_clicked`: ignored when no filesystem is recorded as
open; for a directory entry, dispatch a `list_dir` task carrying the inode
and a `None` path, reusing the stored partition index when present and the
stored offset otherwise; for any other entry type, an informational popup
only. -/
def fileDoubleClicked (s : TabState) (ftype : String) (ino : Nat) (nm : String) :
    TabState × List UiEvent :=
  if s.currentFsOpen = false then (s, [])
  else if ftype = "TSK_FS_META_TYPE_DIR" then
    match s.selectedPartitionIndex with
    | some pi =>
        startDiskAnalysis s
          { task := "list_dir", list_path := some none, inode := some ino,
            partition_index := some pi }
    | none =>
        match s.selectedOffset with
        | some off =>
            startDiskAnalysis s
              { task := "list_dir", list_path := some none, inode := some ino,
                offset_sectors := some off }
        | none =>
            (s, [UiEvent.showErrorMsg
                  ("Cannot navigate: No valid partition or offset selected.")])
  else (s, [UiEvent.infoPopup nm])

/-- `DiskTab.stop_analysis` as seen by the tab state: after the cooperative
stop, quit and bounded wait (with forced termination as fallback), the
cleanup slot `_on_disk_analysis_finished` clears the thread fields. -/
def stopAnalysis (s : TabState) : TabState := { s with threadRunning := false }

/-- `DiskTab._browse_image`: stop any running analysis, then either record
the chosen image (clearing the volume selection and open flag) and dispatch
`get_volumes`, or clear the image path when the dialog was cancelled. -/
def browseImage (s : TabState) (choice : Option String) : TabState × List UiEvent :=
  let s1 := stopAnalysis s
  match choice with
  | some p =>
      let s2 : TabState :=
        { s1 with imagePath := some p, selectedPartitionIndex := none,
                  selectedOffset := none, currentFsOpen := false }
      startDiskAnalysis s2 { task := "get_volumes" }
  | none => ({ s1 with imagePath := none }, [])

/-- The user and worker events that drive a `DiskTab`. -/
inductive TabAction where
  | browse (choice : Option String)
  | volumeSelect (slot startSector : Nat) (desc : String)
  | fileDoubleClick (ftype : String) (ino : Nat) (nm : String)
  | fsOpenedCallback (ok : Bool)
  | workerFinished
deriving DecidableEq

/-- One step of the tab: dispatch the event to its handler
(`_on_filesystem_opened` records the open flag; the thread-finished slot
clears the running flag). -/
def tabStep (s : TabState) : TabAction → TabState × List UiEvent
  | .browse c => browseImage s c
  | .volumeSelect sl st d => volumeSelected s sl st d
  | .fileDoubleClick t i n => fileDoubleClicked s t i n
  | .fsOpenedCallback b => ({ s with currentFsOpen := b }, [])
  | .workerFinished => ({ s with threadRunning := false }, [])

/-- The state of a freshly constructed `DiskTab`. -/
def initTab : TabState := {}

/-- The tab state reached by a sequence of events from the initial state. -/
def runTab (acts : List TabAction) : TabState :=
  acts.foldl (fun s a => (tabStep s a).1) initTab

/-- The relation the spec imposes on consecutive listing entries: a
Directory-typed entry may precede anything, a non-Directory entry only
non-Directory entries, and within a group the case-folded names are
non-decreasing. -/
def claimOrder (a b : DirEntry) : Prop :=
  (a.type = "TSK_FS_META_TYPE_DIR" ∧ ¬ b.type = "TSK_FS_META_TYPE_DIR")
    ∨ ((a.type = "TSK_FS_META_TYPE_DIR" ↔ b.type = "TSK_FS_META_TYPE_DIR")
        ∧ a.name.toLower ≤ b.name.toLower)

/-- Exactly one of the two optional navigation components is set. -/
def exactlyOneCtx (a b : Option Nat) : Prop :=
  (a.isSome = true ∧ b = none) ∨ (a = none ∧ b.isSome = true)

/-- Recognises the `filesystem_opened` signal. -/
def isFsOpenedSig : Signal → Bool
  | .filesystemOpened _ _ => true
  | _ => false

/-- Recognises the `directory_listing_ready` signal. -/
def isListingSig : Signal → Bool
  | .directoryListingReady _ => true
  | _ => false

/-- The reachability invariant of the tab: a running worker thread implies a
selected image (the only transition that starts a thread requires one). -/
def tabInv (s : TabState) : Prop :=
  s.threadRunning = true → s.imagePath.isSome = true

/-- A small concrete image (1024 bytes, 512-byte sectors) for witnesses. -/
def img0 : ImgInfo := { size := 1024, blockSize := 512 }

/-- A concrete filesystem for witnesses. -/
def fs0 : FsInfo := { ftype := 1, rootInum := 2 }

/-- A freshly constructed handler on `img0`. -/
def handler0 : DiskImageHandler := freshHandler ("image.dd") img0

/-- An `FS_Info` oracle that always succeeds. -/
def oracle0 : Nat → Except String FsInfo := fun _ => Except.ok fs0

/-- A collaborator whose volume probe reports no partition table and whose
filesystem and directory calls fail. -/
def collabV : Collab :=
  { imgResult := Except.ok img0,
    volumeProbe := VolumeInfoResult.ioError ("no volume system"),
    fsOracle := fun _ => Except.error ("unsupported"),
    openDir := fun _ _ => Except.error ("unreadable"),
    fmt := fun _ => none }

/-- A collaborator whose `Img_Info` construction raises. -/
def collabErr : Collab :=
  { imgResult := Except.error ("disk read failed"),
    volumeProbe := VolumeInfoResult.ioError ("no volume system"),
    fsOracle := fun _ => Except.error ("unsupported"),
    openDir := fun _ _ => Except.error ("unreadable"),
    fmt := fun _ => none }

/-- Kwargs of a volume-enumeration task. -/
def kGetVol : Kwargs := { task := "get_volumes" }

/-- Kwargs of a root-listing task that carries neither a partition index nor
an offset, so its internal filesystem open fails. -/
def kListDirBare : Kwargs := { task := "list_dir", list_path := some (some ("/")) }

/-- A stop flag that reads `false` at every check (stop requested before the
task body reached its first check). -/
def flagFalse : Nat → Bool := fun _ => false

/-- A stop flag that reads `true` at every check (no stop request). -/
def flagTrue : Nat → Bool := fun _ => true

/-- An event history that leaves a worker thread running: an image was just
selected, which dispatched `get_volumes`. -/
def actsBusy : List TabAction := [TabAction.browse (some ("image.dd"))]

/-- An event history that selects an image, lets its enumeration finish and
double-clicks a regular (non-synthetic) partition descriptor. -/
def actsBothSet : List TabAction :=
  [TabAction.browse (some ("image.dd")), TabAction.workerFinished,
   TabAction.volumeSelect 1 2048 ("NTFS / exFAT 0x07")]

/-- A tab state with an open filesystem on partition 1 of a selected image,
as reached after a successful root listing. -/
def sNav : TabState :=
  { imagePath := some ("image.dd"), threadRunning := false,
    selectedPartitionIndex := some 1, selectedOffset := some 2048,
    currentFsOpen := true }

/-! ## Theorems -/

/-- Claim C2: a call to `open_filesystem` with both `partition_index` and
`offset_sectors` provided, or with neither provided, returns `False`
without attempting any `FS_Info` construction. -/
theorem c2_open_requires_exactly_one_argument (h : DiskImageHandler)
    (oracle : Nat → Except String FsInfo) (pi os : Option Nat)
    (hargs : (pi.isSome = true ∧ os.isSome = true) ∨ (pi = none ∧ os = none)) :
    (open_filesystem h oracle pi os).success = false ∧
      (open_filesystem h oracle pi os).fsCalls = [] := by
  rcases hargs with ⟨hpi, hos⟩ | ⟨hpi, hos⟩
  · rcases Option.isSome_iff_exists.mp hpi with ⟨a, rfl⟩
    rcases Option.isSome_iff_exists.mp hos with ⟨b, rfl⟩
    exact ⟨rfl, rfl⟩
  · subst hpi
    subst hos
    exact ⟨rfl, rfl⟩

/-- Witness for C2 at a concrete both-provided call. -/
theorem c2_open_requires_exactly_one_argument_witness :
    (open_filesystem handler0 oracle0 (some 1) (some 2)).success = false ∧
      (open_filesystem handler0 oracle0 (some 1) (some 2)).fsCalls = [] :=
  c2_open_requires_exactly_one_argument handler0 oracle0 (some 1) (some 2)
    (Or.inl ⟨rfl, rfl⟩)

/-- Claim C3: when the volume-system probe raises the classified expected
IOError ("no partition table"), `get_volume_info` returns exactly one
synthetic descriptor with slot 0, start sector 0 and the sentinel
description, instead of propagating an error. -/
theorem c3_no_partition_table_synthetic_volume (h : DiskImageHandler)
    (msg : String) :
    ∃ v, (get_volume_info h (VolumeInfoResult.ioError msg)).2 = [v] ∧
      v.slot = 0 ∧ v.start_sector = 0 ∧
      v.desc = "Potential Filesystem (No Partition Table)" :=
  ⟨syntheticVolume h.img_info, rfl, rfl, rfl, rfl⟩

/-- Either `openAt` fails with both handler fields cleared, or it succeeds
with a filesystem stored. -/
theorem openAt_cases (h : DiskImageHandler) (oracle : Nat → Except String FsInfo)
    (off : Nat) :
    ((openAt h oracle off).success = false ∧
        (openAt h oracle off).handler.fs_info = none ∧
        (openAt h oracle off).handler.partition_offset = none)
      ∨ ((openAt h oracle off).success = true ∧
          (openAt h oracle off).handler.fs_info.isSome = true) := by
  unfold openAt
  cases oracle off with
  | error e => exact Or.inl ⟨rfl, rfl, rfl⟩
  | ok fs => exact Or.inr ⟨rfl, rfl⟩

/-- Either `open_filesystem` fails with `fs_info` and `partition_offset`
cleared, or it succeeds with a filesystem stored. -/
theorem open_filesystem_cases (h : DiskImageHandler)
    (oracle : Nat → Except String FsInfo) (pi os : Option Nat) :
    ((open_filesystem h oracle pi os).success = false ∧
        (open_filesystem h oracle pi os).handler.fs_info = none ∧
        (open_filesystem h oracle pi os).handler.partition_offset = none)
      ∨ ((open_filesystem h oracle pi os).success = true ∧
          (open_filesystem h oracle pi os).handler.fs_info.isSome = true) := by
  cases pi with
  | none =>
    cases os with
    | none => exact Or.inl ⟨rfl, rfl, rfl⟩
    | some osec => exact openAt_cases _ _ _
  | some idx =>
    cases os with
    | some osec => exact Or.inl ⟨rfl, rfl, rfl⟩
    | none =>
      show ((openByPartition (clearFs h) oracle idx).success = false ∧
            (openByPartition (clearFs h) oracle idx).handler.fs_info = none ∧
            (openByPartition (clearFs h) oracle idx).handler.partition_offset = none)
          ∨ ((openByPartition (clearFs h) oracle idx).success = true ∧
              (openByPartition (clearFs h) oracle idx).handler.fs_info.isSome = true)
      unfold openByPartition
      split
      · exact Or.inl ⟨rfl, rfl, rfl⟩
      · split
        · exact Or.inl ⟨rfl, rfl, rfl⟩
        · exact openAt_cases _ _ _

/-- Claim C10: after any `open_filesystem` call, the returned boolean is true
exactly when `fs_info` is non-None; every failed open leaves both `fs_info`
and `partition_offset` cleared, and a `list_directory` on the failed-open
handler returns the empty list instead of raising. -/
theorem c10_open_filesystem_postcondition (h : DiskImageHandler)
    (oracle : Nat → Except String FsInfo) (pi os : Option Nat)
    (fmt : Int → Option String)
    (openDir : Option String → Option Nat → Except String DirStream)
    (p : Option String) (ino : Option Nat) :
    ((open_filesystem h oracle pi os).success = true ↔
        (open_filesystem h oracle pi os).handler.fs_info.isSome = true)
      ∧ ((open_filesystem h oracle pi os).success = false →
          (open_filesystem h oracle pi os).handler.fs_info = none ∧
            (open_filesystem h oracle pi os).handler.partition_offset = none)
      ∧ ((open_filesystem h oracle pi os).success = false →
          list_directory (open_filesystem h oracle pi os).handler fmt openDir p ino
            = []) := by
  rcases open_filesystem_cases h oracle pi os with ⟨hs, hfs, hpo⟩ | ⟨hs, hfs⟩
  · refine ⟨⟨fun h1 => ?_, fun h1 => ?_⟩, fun _ => ⟨hfs, hpo⟩, fun _ => ?_⟩
    · rw [hs] at h1
      exact absurd h1 (by simp)
    · rw [hfs] at h1
      simp at h1
    · unfold list_directory
      rw [hfs]
  · refine ⟨⟨fun _ => hfs, fun _ => hs⟩, fun h1 => ?_, fun h1 => ?_⟩
    · rw [hs] at h1
      exact absurd h1 (by simp)
    · rw [hs] at h1
      exact absurd h1 (by simp)

/-- A record surviving the listing filter does not start with the reserved
`$` marker. -/
theorem keepEntry_no_dollar {isRoot : Bool} {f : RawDirEntry}
    (hk : keepEntry isRoot f = true) : f.name.startsWith ("$") = false := by
  unfold keepEntry at hk
  simp only [Bool.and_eq_true, Bool.not_eq_true'] at hk
  exact hk.2

/-- When the listed directory is not the root, a record surviving the listing
filter is neither `.` nor `..`. -/
theorem keepEntry_not_special {isRoot : Bool} {f : RawDirEntry}
    (hk : keepEntry isRoot f = true) (hr : isRoot = false) :
    f.name ≠ "." ∧ f.name ≠ ".." := by
  unfold keepEntry at hk
  simp only [Bool.and_eq_true, Bool.not_eq_true'] at hk
  have h1 := hk.1
  rw [hr] at h1
  simpa using h1

/-- Every entry of a `list_directory` result arises from a raw record of the
fetched directory stream that passed the filter. -/
theorem list_directory_mem (h : DiskImageHandler) (fmt : Int → Option String)
    (openDir : Option String → Option Nat → Except String DirStream)
    (path : Option String) (inode : Option Nat) (e : DirEntry)
    (he : e ∈ list_directory h fmt openDir path inode) :
    ∃ fs dir, h.fs_info = some fs ∧ fetchDir openDir path inode = Except.ok dir ∧
      ∃ f ∈ dir.entries,
        keepEntry (dir.dirMetaAddr == fs.rootInum) f = true ∧ e = mkEntry fmt f := by
  unfold list_directory at he
  rcases hfs : h.fs_info with _ | fs
  · rw [hfs] at he
    simp at he
  · rw [hfs] at he
    rcases hfd : fetchDir openDir path inode with msg | dir
    · rw [hfd] at he
      simp at he
    · rw [hfd] at he
      unfold process_dir at he
      simp only [List.mem_insertionSort] at he
      rcases List.mem_map.mp he with ⟨f, hf, rfl⟩
      rcases List.mem_filter.mp hf with ⟨hfe, hkeep⟩
      exact ⟨fs, dir, rfl, rfl, f, hfe, hkeep, rfl⟩

/-- The sort relation used by the code implies the ordering the spec states. -/
theorem entryRel_claimOrder {a b : DirEntry} (hab : entryRel a b) :
    claimOrder a b := by
  unfold entryRel entryKeyLE at hab
  simp only [Bool.or_eq_true, Bool.and_eq_true, decide_eq_true_eq] at hab
  have hdir : ∀ e : DirEntry,
      isNonDir e = false ↔ e.type = "TSK_FS_META_TYPE_DIR" := by
    intro e
    unfold isNonDir
    simp
  rcases hab with ⟨ha, hb⟩ | ⟨hab, hn⟩
  · refine Or.inl ⟨(hdir a).mp ha, fun hbd => ?_⟩
    rw [← hdir b] at hbd
    rw [hb] at hbd
    exact absurd hbd (by simp)
  · refine Or.inr ⟨?_, hn⟩
    constructor
    · intro had
      exact (hdir b).mp (hab ▸ (hdir a).mpr had)
    · intro hbd
      exact (hdir a).mp (hab ▸ (hdir b).mpr hbd)

/-- Claim C4: every successful `list_directory` result contains no entry
starting with the reserved `$` marker; it contains `.` or `..` only when
the listed directory is the filesystem root; and it is sorted with all
Directory-typed entries first and, within each group, names in
case-insensitively non-decreasing order. -/
theorem c4_listing_filter_and_sort (h : DiskImageHandler)
    (fmt : Int → Option String)
    (openDir : Option String → Option Nat → Except String DirStream)
    (path : Option String) (inode : Option Nat) :
    (∀ e ∈ list_directory h fmt openDir path inode,
        e.name.startsWith ("$") = false)
      ∧ (∀ fs dir, h.fs_info = some fs →
          fetchDir openDir path inode = Except.ok dir →
          dir.dirMetaAddr ≠ fs.rootInum →
          ∀ e ∈ list_directory h fmt openDir path inode,
            e.name ≠ "." ∧ e.name ≠ "..")
      ∧ List.Pairwise claimOrder (list_directory h fmt openDir path inode) := by
  refine ⟨?_, ?_, ?_⟩
  · intro e he
    rcases list_directory_mem h fmt openDir path inode e he with
      ⟨fs, dir, _, _, f, _, hkeep, rfl⟩
    exact keepEntry_no_dollar hkeep
  · intro fs dir hfs hfd hne e he
    rcases list_directory_mem h fmt openDir path inode e he with
      ⟨fs2, dir2, hfs2, hfd2, f, _, hkeep, rfl⟩
    rw [hfs] at hfs2
    injection hfs2 with hfs2
    rw [hfd] at hfd2
    injection hfd2 with hfd2
    subst hfs2
    subst hfd2
    exact keepEntry_not_special hkeep (by simpa using hne)
  · unfold list_directory
    rcases h.fs_info with _ | fs
    · exact List.Pairwise.nil
    · rcases fetchDir openDir path inode with msg | dir
      · exact List.Pairwise.nil
      · exact (List.sorted_insertionSort entryRel _).imp
          (fun hab => entryRel_claimOrder hab)

/-- When `DiskImageHandler(image_path)` raises, the `try` body of the task
ends exceptionally right after the first progress signal. -/
theorem runTryBody_imgError (c : Collab) (k : Kwargs) (flag : Nat → Bool)
    (s : RunSt) (e : String) (himg : c.imgResult = Except.error e) :
    runTryBody c k flag s =
      (emitS s (.progress ("Starting disk task: " ++ k.task ++ "...")), .exn e) := by
  unfold runTryBody
  rw [himg]

/-- Claim C8: a collaborator exception reaching the task boundary (the
handler construction raising) is caught and converted into the failure
outcome: when no stop was requested, the task emits exactly the starting
progress signal, one error signal with a descriptive message, and the
completion signal; `run` returns normally (it is a total function into a
signal list, so nothing propagates). -/
theorem c8_collaborator_exception_converted (c : Collab) (k : Kwargs)
    (flag : Nat → Bool) (e : String) (himg : c.imgResult = Except.error e)
    (hrun : ∀ i, flag i = true) :
    run c k flag =
      [Signal.progress ("Starting disk task: " ++ k.task ++ "..."),
       Signal.error ("Disk analysis error: " ++ e),
       Signal.finished] := by
  unfold run
  rw [runTryBody_imgError c k flag _ e himg]
  simp [checkRun, emitS, hrun]

/-- Witness for C8: a concrete collaborator whose image open raises. -/
theorem c8_collaborator_exception_converted_witness :
    run collabErr kGetVol flagTrue =
      [Signal.progress ("Starting disk task: " ++ kGetVol.task ++ "..."),
       Signal.error ("Disk analysis error: " ++ "disk read failed"),
       Signal.finished] :=
  c8_collaborator_exception_converted collabErr kGetVol flagTrue
    ("disk read failed") rfl (fun _ => rfl)

/-- Counterexample to claim C6 as stated: a `list_dir` task whose internal
filesystem open fails emits no `filesystem_opened` signal at all (the
claimed `filesystemOpen=False` outcome); it reports the failure through the
`error` signal instead. -/
theorem c6_counterexample :
    (run collabV kListDirBare flagTrue).filter isFsOpenedSig = [] ∧
      Signal.error ("Failed to open filesystem before listing directory.")
        ∈ run collabV kListDirBare flagTrue := by decide

/-- Claim C6 as amended: when the internal open step of a `list_dir` task
fails (and no stop was requested), the task emits an `error` signal with
the descriptive message and the completion signal, and emits neither a
directory-listing payload nor any `filesystem_opened` signal. -/
theorem c6_listdir_open_failure (c : Collab) (k : Kwargs) (flag : Nat → Bool)
    (img : ImgInfo) (himg : c.imgResult = Except.ok img)
    (htask : k.task = "list_dir")
    (hfail : (open_filesystem (freshHandler (k.image_path.getD ("")) img)
        c.fsOracle k.partition_index k.offset_sectors).success = false)
    (hrun : ∀ i, flag i = true) :
    run c k flag =
      [Signal.progress ("Starting disk task: " ++ k.task ++ "..."),
       Signal.progress ("Opening filesystem to list directory..."),
       Signal.error ("Failed to open filesystem before listing directory."),
       Signal.finished] := by
  unfold run runTryBody
  rw [himg, htask]
  simp [checkRun, emitS, hrun, hfail]

/-- Witness for C6 (amended) at the concrete failing-open task. -/
theorem c6_listdir_open_failure_witness :
    run collabV kListDirBare flagTrue =
      [Signal.progress ("Starting disk task: " ++ kListDirBare.task ++ "..."),
       Signal.progress ("Opening filesystem to list directory..."),
       Signal.error ("Failed to open filesystem before listing directory."),
       Signal.finished] :=
  c6_listdir_open_failure collabV kListDirBare flagTrue img0 rfl rfl
    (by decide) (fun _ => rfl)

/-- Once the stop flag reads `false`, the `except` handler emits no error and
the `finally` block emits no completion: `run` delivers exactly what the
`try` body had emitted. -/
theorem run_stop (c : Collab) (k : Kwargs) (flag : Nat → Bool)
    (hstop : ∀ i, flag i = false) :
    run c k flag = (runTryBody c k flag { sigs := [], idx := 0 }).1.sigs := by
  unfold run
  rcases hrb : runTryBody c k flag { sigs := [], idx := 0 } with ⟨s1, ex⟩
  cases ex <;> simp [checkRun, emitS, hstop]

/-- Under an all-false stop flag, the `try` body only ever adds progress
signals to what was already emitted. -/
theorem runTryBody_stop_progress (c : Collab) (k : Kwargs) (flag : Nat → Bool)
    (hstop : ∀ i, flag i = false) (s : RunSt) :
    ∀ sig ∈ (runTryBody c k flag s).1.sigs,
      sig ∈ s.sigs ∨ ∃ m, sig = Signal.progress m := by
  intro sig hsig
  unfold runTryBody at hsig
  rcases himg : c.imgResult with e | img <;> rw [himg] at hsig <;>
    simp only [checkRun, emitS, hstop, Bool.false_eq_true, if_false] at hsig
  · rcases List.mem_append.mp hsig with h | h
    · exact Or.inl h
    · exact Or.inr ⟨_, by simpa using h⟩
  · split at hsig
    · rcases List.mem_append.mp hsig with h | h
      · rcases List.mem_append.mp h with h2 | h2
        · exact Or.inl h2
        · exact Or.inr ⟨_, by simpa using h2⟩
      · exact Or.inr ⟨_, by simpa using h⟩
    · split at hsig
      · rcases List.mem_append.mp hsig with h | h
        · rcases List.mem_append.mp h with h2 | h2
          · exact Or.inl h2
          · exact Or.inr ⟨_, by simpa using h2⟩
        · exact Or.inr ⟨_, by simpa using h⟩
      · split at hsig
        · split at hsig
          · rcases List.mem_append.mp hsig with h | h
            · rcases List.mem_append.mp h with h2 | h2
              · exact Or.inl h2
              · exact Or.inr ⟨_, by simpa using h2⟩
            · exact Or.inr ⟨_, by simpa using h⟩
          · rcases List.mem_append.mp hsig with h | h
            · rcases List.mem_append.mp h with h2 | h2
              · rcases List.mem_append.mp h2 with h3 | h3
                · exact Or.inl h3
                · exact Or.inr ⟨_, by simpa using h3⟩
              · exact Or.inr ⟨_, by simpa using h2⟩
            · exact Or.inr ⟨_, by simpa using h⟩
        · rcases List.mem_append.mp hsig with h | h
          · exact Or.inl h
          · exact Or.inr ⟨_, by simpa using h⟩

/-- Counterexample to claim C1 as stated: a task whose stop flag reads false
at every check (the stop request landed before the first check) emits no
completion signal at all, while the claim requires `finished` to be emitted
exactly once. -/
theorem c1_counterexample :
    Signal.finished ∉ run collabV kGetVol flagFalse ∧
      run collabV kGetVol flagFalse =
        [Signal.progress ("Starting disk task: get_volumes..."),
         Signal.progress ("Reading volume information...")] := by decide

/-- Claim C1 as amended: once a cooperative stop request is in effect (every
check of the running flag reads false), the task emits no success or
failure payload signal for work in flight and also suppresses the
completion signal — everything it emits is an advisory progress signal. -/
theorem c1_stop_suppresses_all_signals (c : Collab) (k : Kwargs)
    (flag : Nat → Bool) (hstop : ∀ i, flag i = false) :
    ∀ sig ∈ run c k flag, ∃ m, sig = Signal.progress m := by
  intro sig hsig
  rw [run_stop c k flag hstop] at hsig
  rcases runTryBody_stop_progress c k flag hstop { sigs := [], idx := 0 } sig hsig
    with h | h
  · simp at h
  · exact h

/-- Witness for C1 (amended) at the concrete stopped enumeration task. -/
theorem c1_stop_suppresses_all_signals_witness :
    ∃ m, Signal.progress ("Starting disk task: get_volumes...") = Signal.progress m :=
  c1_stop_suppresses_all_signals collabV kGetVol flagFalse (fun _ => rfl)
    (Signal.progress ("Starting disk task: get_volumes...")) (by decide)

/-- `_start_disk_analysis` either leaves the state untouched (rejection) or
only sets the running flag, and in the latter case an image was selected. -/
theorem startDiskAnalysis_state (s : TabState) (req : Kwargs) :
    (startDiskAnalysis s req).1 = s ∨
      ((startDiskAnalysis s req).1 = { s with threadRunning := true } ∧
        s.imagePath.isSome = true) := by
  unfold startDiskAnalysis
  rcases hp : s.imagePath with _ | p
  · exact Or.inl rfl
  · dsimp only
    by_cases hr : s.threadRunning = true
    · rw [if_pos hr]
      exact Or.inl rfl
    · rw [if_neg hr]
      exact Or.inr ⟨rfl, rfl⟩

/-- `_start_disk_analysis` preserves the running-implies-image invariant. -/
theorem startDiskAnalysis_inv (s : TabState) (req : Kwargs) (h : tabInv s) :
    tabInv (startDiskAnalysis s req).1 := by
  rcases startDiskAnalysis_state s req with heq | ⟨heq, him⟩
  · rw [heq]
    exact h
  · rw [heq]
    intro _
    exact him

/-- Every tab event preserves the running-implies-image invariant. -/
theorem tabStep_inv (s : TabState) (a : TabAction) (h : tabInv s) :
    tabInv (tabStep s a).1 := by
  cases a with
  | browse c =>
    rcases c with _ | p
    · intro h1
      simp [tabStep, browseImage, stopAnalysis] at h1
    · show tabInv (startDiskAnalysis _ _).1
      apply startDiskAnalysis_inv
      intro _
      rfl
  | volumeSelect sl st d =>
    show tabInv (volumeSelected s sl st d).1
    unfold volumeSelected
    by_cases hc : strContains d ("Potential Filesystem") = true
    · rw [if_pos hc]
      apply startDiskAnalysis_inv
      intro h1
      exact h h1
    · rw [if_neg hc]
      apply startDiskAnalysis_inv
      intro h1
      exact h h1
  | fileDoubleClick t i n =>
    show tabInv (fileDoubleClicked s t i n).1
    unfold fileDoubleClicked
    by_cases ho : s.currentFsOpen = false
    · rw [if_pos ho]
      exact h
    · rw [if_neg ho]
      by_cases ht : t = "TSK_FS_META_TYPE_DIR"
      · rw [if_pos ht]
        rcases s.selectedPartitionIndex with _ | pi
        · rcases s.selectedOffset with _ | off
          · exact h
          · exact startDiskAnalysis_inv _ _ h
        · exact startDiskAnalysis_inv _ _ h
      · rw [if_neg ht]
        exact h
  | fsOpenedCallback b =>
    intro h1
    exact h h1
  | workerFinished =>
    intro h1
    simp [tabStep] at h1

/-- Every reachable tab state satisfies the running-implies-image invariant. -/
theorem runTab_inv (acts : List TabAction) : tabInv (runTab acts) := by
  unfold runTab
  have hgen : ∀ (l : List TabAction) (s : TabState), tabInv s →
      tabInv (l.foldl (fun s a => (tabStep s a).1) s) := by
    intro l
    induction l with
    | nil => intro s hs; exact hs
    | cons a rest ih => intro s hs; exact ih _ (tabStep_inv s a hs)
  apply hgen
  intro h1
  simp [initTab] at h1

/-- Claim C5: in every reachable tab state whose worker thread is still
running, a new task request is rejected with the immediate synchronous
busy warning and nothing else: the state (and hence the in-flight task) is
left completely unchanged and no task is queued or started. -/
theorem c5_busy_rejection (acts : List TabAction) (req : Kwargs)
    (hbusy : (runTab acts).threadRunning = true) :
    startDiskAnalysis (runTab acts) req = (runTab acts, [UiEvent.warnBusy]) := by
  have him := runTab_inv acts hbusy
  rcases Option.isSome_iff_exists.mp him with ⟨p, hp⟩
  unfold startDiskAnalysis
  rw [hp]
  dsimp only
  rw [if_pos hbusy]

/-- Witness for C5: right after image selection the enumeration thread is
running, and a request is rejected as busy. -/
theorem c5_busy_rejection_witness :
    startDiskAnalysis (runTab actsBusy) kListDirBare =
      (runTab actsBusy, [UiEvent.warnBusy]) :=
  c5_busy_rejection actsBusy kListDirBare (by decide)

/-- A task actually dispatched by `_start_disk_analysis` carries the request
fields unchanged except for the inserted image path. -/
theorem startDiskAnalysis_task_mem {s : TabState} {req req2 : Kwargs}
    (h : UiEvent.taskStarted req2 ∈ (startDiskAnalysis s req).2) :
    req2.task = req.task ∧ req2.partition_index = req.partition_index ∧
      req2.offset_sectors = req.offset_sectors ∧
      req2.list_path = req.list_path ∧ req2.inode = req.inode := by
  unfold startDiskAnalysis at h
  rcases hp : s.imagePath with _ | p <;> rw [hp] at h <;> dsimp only at h
  · simp at h
  · by_cases hr : s.threadRunning = true
    · rw [if_pos hr] at h
      simp at h
    · rw [if_neg hr] at h
      simp only [List.mem_singleton, UiEvent.taskStarted.injEq] at h
      rw [h]
      exact ⟨rfl, rfl, rfl, rfl, rfl⟩

/-- The navigation fields of the tab state are untouched by
`_start_disk_analysis`. -/
theorem startDiskAnalysis_fields (s : TabState) (req : Kwargs) :
    (startDiskAnalysis s req).1.selectedPartitionIndex = s.selectedPartitionIndex ∧
      (startDiskAnalysis s req).1.selectedOffset = s.selectedOffset := by
  rcases startDiskAnalysis_state s req with heq | ⟨heq, _⟩ <;> rw [heq] <;>
    exact ⟨rfl, rfl⟩

/-- Counterexample to claim C7 as stated: reachable tab history — select an
image, let enumeration finish, double-click a regular partition descriptor
(slot 1, start sector 2048) — leaves BOTH `selectedPartitionIndex` and
`selectedOffset` set, so the navigation context does not hold exactly one
of the two. -/
theorem c7_counterexample :
    (runTab actsBothSet).selectedPartitionIndex = some 1 ∧
      (runTab actsBothSet).selectedOffset = some 2048 := by decide

/-- Claim C7 as amended: after any volume selection the offset component of
the navigation context is always set (for a regular partition the
partition component is set as well, so the two are not mutually
exclusive in the state); however every task request dispatched by a volume
selection or by directory navigation carries exactly one of
`partition_index` / `offset_sectors`. -/
theorem c7_nav_context_amended (s : TabState) (slot st : Nat) (desc : String)
    (ftype : String) (ino : Nat) (nm : String) :
    ((volumeSelected s slot st desc).1.selectedOffset.isSome = true)
      ∧ (∀ req, UiEvent.taskStarted req ∈ (volumeSelected s slot st desc).2 →
          exactlyOneCtx req.partition_index req.offset_sectors)
      ∧ (∀ req, UiEvent.taskStarted req ∈ (fileDoubleClicked s ftype ino nm).2 →
          exactlyOneCtx req.partition_index req.offset_sectors) := by
  refine ⟨?_, ?_, ?_⟩
  · unfold volumeSelected
    by_cases hc : strContains desc ("Potential Filesystem") = true
    · rw [if_pos hc]
      rw [(startDiskAnalysis_fields _ _).2]
      rfl
    · rw [if_neg hc]
      rw [(startDiskAnalysis_fields _ _).2]
      rfl
  · intro req hreq
    unfold volumeSelected at hreq
    by_cases hc : strContains desc ("Potential Filesystem") = true
    · rw [if_pos hc] at hreq
      rcases startDiskAnalysis_task_mem hreq with ⟨_, h1, h2, _, _⟩
      rw [h1, h2]
      exact Or.inr ⟨rfl, rfl⟩
    · rw [if_neg hc] at hreq
      rcases startDiskAnalysis_task_mem hreq with ⟨_, h1, h2, _, _⟩
      rw [h1, h2]
      exact Or.inl ⟨rfl, rfl⟩
  · intro req hreq
    unfold fileDoubleClicked at hreq
    by_cases ho : s.currentFsOpen = false
    · rw [if_pos ho] at hreq
      simp at hreq
    · rw [if_neg ho] at hreq
      by_cases ht : ftype = "TSK_FS_META_TYPE_DIR"
      · rw [if_pos ht] at hreq
        rcases hpi : s.selectedPartitionIndex with _ | pi <;> rw [hpi] at hreq <;>
          dsimp only at hreq
        · rcases hoff : s.selectedOffset with _ | off <;> rw [hoff] at hreq <;>
            dsimp only at hreq
          · simp at hreq
          · rcases startDiskAnalysis_task_mem hreq with ⟨_, h1, h2, _, _⟩
            rw [h1, h2]
            exact Or.inr ⟨rfl, rfl⟩
        · rcases startDiskAnalysis_task_mem hreq with ⟨_, h1, h2, _, _⟩
          rw [h1, h2]
          exact Or.inl ⟨rfl, rfl⟩
      · rw [if_neg ht] at hreq
        simp at hreq

/-- When an image is selected and no worker is running,
`_start_disk_analysis` starts the thread and dispatches exactly the given
request with the image path inserted. -/
theorem startDiskAnalysis_dispatch (s : TabState) (req : Kwargs) (p : String)
    (himg : s.imagePath = some p) (hidle : s.threadRunning = false) :
    startDiskAnalysis s req =
      ({ s with threadRunning := true },
       [UiEvent.taskStarted { req with image_path := some p }]) := by
  unfold startDiskAnalysis
  rw [himg]
  dsimp only
  rw [if_neg (by rw [hidle]; simp)]

/-- Claim C9: double-clicking a Directory-typed entry dispatches exactly one
`list_dir` task that keeps the stored partition/offset context (the
partition index when one is stored, else the stored offset), carries
`inode = entry.inode` and a `None` path, and leaves the tab's navigation
context unchanged; and `list_directory` opens by inode whenever one is
given, the path argument being ignored. -/
theorem c9_directory_navigation (s : TabState) (ino : Nat) (nm : String)
    (p : String) (himg : s.imagePath = some p) (hidle : s.threadRunning = false)
    (hopen : s.currentFsOpen = true)
    (hctx : s.selectedPartitionIndex.isSome = true ∨ s.selectedOffset.isSome = true) :
    (∃ req,
        (fileDoubleClicked s ("TSK_FS_META_TYPE_DIR") ino nm).2 =
            [UiEvent.taskStarted req]
          ∧ req.task = "list_dir" ∧ req.inode = some ino ∧ req.list_path = some none
          ∧ (s.selectedPartitionIndex.isSome = true →
              req.partition_index = s.selectedPartitionIndex ∧
                req.offset_sectors = none)
          ∧ (s.selectedPartitionIndex = none →
              req.partition_index = none ∧ req.offset_sectors = s.selectedOffset))
      ∧ (fileDoubleClicked s ("TSK_FS_META_TYPE_DIR") ino nm).1.selectedPartitionIndex
          = s.selectedPartitionIndex
      ∧ (fileDoubleClicked s ("TSK_FS_META_TYPE_DIR") ino nm).1.selectedOffset
          = s.selectedOffset
      ∧ ∀ (hh : DiskImageHandler) (fmt2 : Int → Option String)
          (od : Option String → Option Nat → Except String DirStream)
          (p1 p2 : Option String) (j : Nat),
          list_directory hh fmt2 od p1 (some j) = list_directory hh fmt2 od p2 (some j) := by
  rcases hpi : s.selectedPartitionIndex with _ | pi
  · rcases hoff : s.selectedOffset with _ | off
    · rcases hctx with h1 | h1
      · rw [hpi] at h1
        exact absurd h1 (by simp)
      · rw [hoff] at h1
        exact absurd h1 (by simp)
    · have hfd : fileDoubleClicked s ("TSK_FS_META_TYPE_DIR") ino nm =
          ({ s with threadRunning := true },
           [UiEvent.taskStarted
              { task := "list_dir", image_path := some p, partition_index := none,
                offset_sectors := some off, list_path := some none,
                inode := some ino }]) := by
        unfold fileDoubleClicked
        rw [hopen]
        rw [if_neg (by simp)]
        rw [if_pos rfl]
        rw [hpi]
        dsimp only
        rw [hoff]
        dsimp only
        rw [startDiskAnalysis_dispatch s _ p himg hidle]
        simp [hpi, hoff, hopen]
      refine ⟨⟨_, by rw [hfd], rfl, rfl, rfl, ?_, ?_⟩,
        by rw [hfd]; exact hpi, by rw [hfd]; exact hoff, ?_⟩
      · intro h1
        exact absurd h1 (by simp)
      · intro _
        exact ⟨rfl, rfl⟩
      · intro hh fmt2 od p1 p2 j
        rfl
  · have hfd : fileDoubleClicked s ("TSK_FS_META_TYPE_DIR") ino nm =
        ({ s with threadRunning := true },
         [UiEvent.taskStarted
            { task := "list_dir", image_path := some p, partition_index := some pi,
              offset_sectors := none, list_path := some none,
              inode := some ino }]) := by
      unfold fileDoubleClicked
      rw [hopen]
      rw [if_neg (by simp)]
      rw [if_pos rfl]
      rw [hpi]
      dsimp only
      rw [startDiskAnalysis_dispatch s _ p himg hidle]
      simp [hpi, hopen]
    refine ⟨⟨_, by rw [hfd], rfl, rfl, rfl, ?_, ?_⟩,
      by rw [hfd]; exact hpi, by rw [hfd], ?_⟩
    · intro _
      exact ⟨rfl, rfl⟩
    · intro h1
      exact absurd h1 (by simp)
    · intro hh fmt2 od p1 p2 j
      rfl

/-- Witness for C9 at the concrete navigated tab state. -/
theorem c9_directory_navigation_witness :
    (fileDoubleClicked sNav ("TSK_FS_META_TYPE_DIR") 42 ("docs")).1.selectedPartitionIndex
      = sNav.selectedPartitionIndex :=
  (c9_directory_navigation sNav 42 ("docs") ("image.dd") rfl rfl rfl
    (Or.inl rfl)).2.1

end Porsha
